import Mathlib

/-!
Shallow embedding of the WebGPU tile/sprite renderer.

The definitions below translate, function by function, the JavaScript and
WGSL sources of the repository:

* `fragmentMain` — `src/client/js/shaders/texture_fragment.wgsl`, `main`.
* `updatePositions` — `src/client/js/ComputeTextureBatch.js`,
  `ComputeTextureBatch.updatePositions` (the two-output-texture revision
  that packs 9 floats per instance into the 36-byte-per-instance
  `spriteDataBuffer`).
* `renderOrder` — the per-frame sort in `render()` of the
  `drawComputes`-based entry point (`src/unnamed/part_012`).
* `shadowOutput`, `texCoordMap`, `sheetUV` — the canvas-space compute
  shader (`src/unnamed/part_007`, second revision of
  `js/shaders/custom_compute.wgsl`).
* `loadTexture` — `src/client/js/webgpu2.js`, `WebGPULibrary.loadTexture`.
* `batchUpdateTime`, `batchDispatch`, `batchDraw` — the per-frame guard
  paths of `ComputeTextureBatch`.
* `gameUpdate`, `normalizeGameMap` — `src/client/js/game.js`,
  `Game.update` and the map normalisation in `Game`'s constructor.

GPU `f32` arithmetic is modelled over `ℚ` (exact field arithmetic); the
claims under scrutiny are about control flow, ordering and clamping, none
of which depend on rounding.  Where the shader evaluates `cos`/`sin`, the
embedding takes the cosine/sine values as parameters (`cR`, `sR`, …) so
that the mapping stays executable, and the rotation claim is stated over
`ℝ` by instantiating those parameters with `Real.cos 0` / `Real.sin 0`.
-/

/-- An rgba colour, one `f32` per channel, modelled exactly over `ℚ`. -/
structure Vec4 where
  r : ℚ
  g : ℚ
  b : ℚ
  a : ℚ
deriving DecidableEq, Repr

/-- The fully transparent colour `vec4f(0,0,0,0)`. -/
def Vec4.clear : Vec4 := ⟨0, 0, 0, 0⟩

/-- `texture_fragment.wgsl` `main`: composite map, shadow and object
colours.  If the object texel has positive alpha it is returned as is;
otherwise the shadow is alpha-blended over the map colour:
`mapColor * (1.0 - shadowColor.a) + vec4f(shadowColor.rgb * shadowColor.a, mapColor.a)`. -/
def fragmentMain (mapColor shadowColor objectColor : Vec4) : Vec4 :=
  if objectColor.a > 0 then objectColor
  else
    ⟨mapColor.r * (1 - shadowColor.a) + shadowColor.r * shadowColor.a,
     mapColor.g * (1 - shadowColor.a) + shadowColor.g * shadowColor.a,
     mapColor.b * (1 - shadowColor.a) + shadowColor.b * shadowColor.a,
     mapColor.a * (1 - shadowColor.a) + mapColor.a⟩

/-- The blend the spec's sentence describes, taken literally on all four
channels: `mapColor*(1-shadowAlpha) + shadowColor*shadowAlpha`. -/
def specShadowBlend (mapColor shadowColor : Vec4) : Vec4 :=
  ⟨mapColor.r * (1 - shadowColor.a) + shadowColor.r * shadowColor.a,
   mapColor.g * (1 - shadowColor.a) + shadowColor.g * shadowColor.a,
   mapColor.b * (1 - shadowColor.a) + shadowColor.b * shadowColor.a,
   mapColor.a * (1 - shadowColor.a) + shadowColor.a * shadowColor.a⟩

/-- One element of the `positions` argument of
`ComputeTextureBatch.updatePositions`: a per-frame sprite record.
`rotation` and `tileIndex` are optional in the source (`sprite.rotation || 0`). -/
structure SpriteRec where
  x : ℚ
  y : ℚ
  type : ℚ
  xSize : ℚ
  ySize : ℚ
  baseY : ℚ
  maxShadowDist : ℚ
  rotation : Option ℚ
  tileIndex : Option ℚ
deriving DecidableEq, Repr

/-- The nine floats `updatePositions` stores for one sprite
(`spriteData[i*9] .. spriteData[i*9+8]`). -/
def packSprite (s : SpriteRec) : List ℚ :=
  [s.x, s.y, s.type, s.xSize, s.ySize, s.baseY, s.maxShadowDist,
   s.rotation.getD 0, s.tileIndex.getD 0]

/-- `ComputeTextureBatch.updatePositions` (two-texture revision): truncate
the list to `maxInstances` when it is longer, pack 9 floats per record
into the `Float32Array` written to `spriteDataBuffer`, and return the
(truncated) instance count.  Result: `(packed floats, returned count)`. -/
def updatePositions (maxInstances : ℕ) (positions : List SpriteRec) :
    List ℚ × ℕ :=
  let ps := if positions.length > maxInstances
            then positions.take maxInstances else positions
  ((ps.map packSprite).flatten, ps.length)

/-- Size in bytes of `spriteDataBuffer`, created in `setupResources` as
`this.maxInstances * 36`. -/
def spriteDataBufferSize (maxInstances : ℕ) : ℕ := maxInstances * 36

/-- One element of `allSprites` in the `drawComputes` entry point
(`src/unnamed/part_012`): world position, shadow baseline and the stable
insertion index `i + 1`. -/
structure RSprite where
  x : ℚ
  y : ℚ
  baseY : ℚ
  index : ℤ
deriving DecidableEq, Repr

/-- The sort key `sprite.y + sprite.baseY` used by `render()`. -/
def depthKey (s : RSprite) : ℚ := s.y + s.baseY

/-- The total preorder realised by the comparator
`(a, b) => aBaseY !== bBaseY ? aBaseY - bBaseY : a.index - b.index`. -/
def spriteOrder (a b : RSprite) : Prop :=
  depthKey a < depthKey b ∨ (depthKey a = depthKey b ∧ a.index ≤ b.index)

instance : DecidableRel spriteOrder := fun a b =>
  inferInstanceAs
    (Decidable (depthKey a < depthKey b ∨
      (depthKey a = depthKey b ∧ a.index ≤ b.index)))

instance : IsTotal RSprite spriteOrder := by
  constructor
  intro a b
  rcases lt_trichotomy (depthKey a) (depthKey b) with h | h | h
  · exact Or.inl (Or.inl h)
  · rcases le_total a.index b.index with hi | hi
    · exact Or.inl (Or.inr ⟨h, hi⟩)
    · exact Or.inr (Or.inr ⟨h.symm, hi⟩)
  · exact Or.inr (Or.inl h)

instance : IsTrans RSprite spriteOrder := by
  constructor
  intro a b c hab hbc
  rcases hab with h1 | ⟨h1, i1⟩ <;> rcases hbc with h2 | ⟨h2, i2⟩
  · exact Or.inl (h1.trans h2)
  · exact Or.inl (h2 ▸ h1)
  · exact Or.inl (h1 ▸ h2)
  · exact Or.inr ⟨h1.trans h2, i1.trans i2⟩

/-- The camera-relative copy `{...sprite, x: sprite.x - cameraX,
y: sprite.y - cameraY}` built by `render()`. -/
def cameraShift (cameraX cameraY : ℚ) (s : RSprite) : RSprite :=
  { s with x := s.x - cameraX, y := s.y - cameraY }

/-- `render()` of the `drawComputes` entry point: shift every sprite by
the camera, then sort by ascending `y + baseY` with the insertion index
as tie-break; the sorted list is what gets packed for drawing. -/
def renderOrder (cameraX cameraY : ℚ) (sprites : List RSprite) :
    List RSprite :=
  List.insertionSort spriteOrder (sprites.map (cameraShift cameraX cameraY))

/-- One record of the `spriteData` storage array of the canvas-space
compute shader (`SpriteData` struct in the second revision of
`custom_compute.wgsl`). -/
structure ShaderSprite where
  offsetX : ℚ
  offsetY : ℚ
  spriteType : ℕ
  width : ℚ
  height : ℚ
  baseY : ℚ
  maxShadowDist : ℚ
  tileIndex : ℚ
deriving DecidableEq, Repr

/-- The object-pass pixel-to-local mapping of the compute shader: subtract
the sprite centre `(offsetX + width/2, offsetY + height/2)`, apply the
inverse rotation matrix `[cosR, sinR; -sinR, cosR]`, translate back by
`(width/2, height/2)`.  `cR`/`sR` stand for the shader's
`cos(sprite.rotation)` / `sin(sprite.rotation)`; the definition is
generic in the scalar field so the rotation claim can be stated over
`ℝ`. -/
def texCoordMap {K : Type} [Field K]
    (cR sR px py offsetX offsetY width height : K) : K × K :=
  ((px - (offsetX + width / 2)) * cR + (py - (offsetY + height / 2)) * sR
      + width / 2,
   -(px - (offsetX + width / 2)) * sR + (py - (offsetY + height / 2)) * cR
      + height / 2)

/-- Sheet UV from a local texel coordinate: heroes (`spriteType == 0`)
sample `texCoord / size`; trees sample the 1440×480 sheet at
`((texCoord.x + tileIndex * 480) / 1440, texCoord.y / 480)`. -/
def sheetUV {K : Type} [Field K]
    (spriteType : ℕ) (width height tileIndex : K) (tc : K × K) : K × K :=
  if spriteType = 0 then (tc.1 / width, tc.2 / height)
  else ((tc.1 + tileIndex * 480) / 1440, tc.2 / 480)

/-- The in-footprint test `0 ≤ x < width ∧ 0 ≤ y < height` used by both
the object branch and the shadow branch of the compute shader. -/
def inFootprint (width height : ℚ) (tc : ℚ × ℚ) : Prop :=
  0 ≤ tc.1 ∧ tc.1 < width ∧ 0 ≤ tc.2 ∧ tc.2 < height

instance (width height : ℚ) (tc : ℚ × ℚ) :
    Decidable (inFootprint width height tc) :=
  inferInstanceAs
    (Decidable (0 ≤ tc.1 ∧ tc.1 < width ∧ 0 ≤ tc.2 ∧ tc.2 < height))

/-- The candidate shadow source texel: project the pixel back along the
light direction from the sprite's baseline (`dPrime = dy / sinθ`,
`sourceX = px - dPrime * cosθ`, `sourceY = shadowBaseY - dPrime`, the
mirror across the baseline), shift by the sprite offset, then rotate into
the sprite's local frame exactly as the object branch does.  `ct`/`st`
stand for the shader's `cos(theta)` / `sin(theta)` at the fixed 45°
light angle, `cR`/`sR` for `cos(rotation)` / `sin(rotation)`. -/
def shadowSourceTexCoord (ct st cR sR : ℚ) (sp : ShaderSprite)
    (px py : ℚ) : ℚ × ℚ :=
  ((px - (py - (sp.offsetY + sp.baseY)) / st * ct - sp.offsetX) * cR
     + ((sp.offsetY + sp.baseY) - (py - (sp.offsetY + sp.baseY)) / st
          - sp.offsetY) * sR
     + sp.width / 2,
   -(px - (py - (sp.offsetY + sp.baseY)) / st * ct - sp.offsetX) * sR
     + ((sp.offsetY + sp.baseY) - (py - (sp.offsetY + sp.baseY)) / st
          - sp.offsetY) * cR
     + sp.height / 2)

/-- The fixed dark semi-transparent shadow colour
`vec4<f32>(0.0, 0.0, 0.05, 0.8)`. -/
def shadowDarkColor : Vec4 := ⟨0, 0, 1/20, 4/5⟩

/-- The shadow branch of the canvas-space compute shader: the shadow
output starts fully transparent and becomes `shadowDarkColor` only when
`0 < dy < maxShadowDist` (with `dy = pixelY - (offsetY + baseY)` the
vertical drop below the baseline), the projected source texel lands
inside the sprite footprint, and the sampled source texel is opaque.
`tex` is the bound input texture as a function of sheet UV. -/
def shadowOutput (tex : ℚ × ℚ → Vec4) (ct st cR sR : ℚ)
    (sp : ShaderSprite) (px py : ℚ) : Vec4 :=
  if py - (sp.offsetY + sp.baseY) > 0 ∧
      py - (sp.offsetY + sp.baseY) < sp.maxShadowDist then
    if inFootprint sp.width sp.height
        (shadowSourceTexCoord ct st cR sR sp px py) then
      if (tex (sheetUV sp.spriteType sp.width sp.height sp.tileIndex
          (shadowSourceTexCoord ct st cR sR sp px py))).a > 0
      then shadowDarkColor
      else Vec4.clear
    else Vec4.clear
  else Vec4.clear

/-- A cache entry of `WebGPULibrary.textureCache`: the dimensions of the
GPU texture created for a previously loaded URL (URLs are modelled as
opaque numeric keys). -/
structure CachedTexture where
  width : ℕ
  height : ℕ
deriving DecidableEq, Repr

/-- The single error `WebGPULibrary.loadTexture` can throw: requested
dimensions exceed the image bounds. -/
inductive ResourceError
  | dimsExceedBounds
deriving DecidableEq, Repr

/-- JavaScript `width || imageBitmap.width`: an absent (or `0`, falsy)
explicit dimension falls back to the bitmap's natural dimension. -/
def jsOrDim (requested : Option ℕ) (natural : ℕ) : ℕ :=
  match requested with
  | some w => if w = 0 then natural else w
  | none => natural

/-- `WebGPULibrary.loadTexture`: a cache hit returns the cached resource
immediately; on a miss the requested dimensions (defaulted to the
bitmap's) are guarded against exceeding the bitmap bounds, then the
texture is created and cached.  Returns the result and the new cache. -/
def loadTexture (cache : List (ℕ × CachedTexture)) (url : ℕ)
    (reqW reqH : Option ℕ) (bitmapW bitmapH : ℕ) :
    Except ResourceError CachedTexture × List (ℕ × CachedTexture) :=
  match cache.lookup url with
  | some cached => (Except.ok cached, cache)
  | none =>
      let tw := jsOrDim reqW bitmapW
      let th := jsOrDim reqH bitmapH
      if tw > bitmapW ∨ th > bitmapH then
        (Except.error ResourceError.dimsExceedBounds, cache)
      else
        (Except.ok ⟨tw, th⟩, (url, ⟨tw, th⟩) :: cache)

/-- The per-frame-relevant state of a `ComputeTextureBatch`: the
`initialized` flag set only after `init()` succeeds, presence flags for
the resources each guard checks, and generation counters that increase
whenever `updateComputeBindGroup` / `updateRenderBindGroup` replace a
bind group. -/
structure BatchState where
  initialized : Bool
  hasUniformBuffer : Bool
  hasComputePipeline : Bool
  hasComputeBindGroup : Bool
  hasRenderPipeline : Bool
  hasRenderBindGroup : Bool
  hasSpriteDataBuffer : Bool
  computeBindGroupGen : ℕ
  renderBindGroupGen : ℕ
deriving DecidableEq, Repr

/-- Observable per-frame actions: a console warning or a GPU command. -/
inductive GpuEvent
  | warn
  | writeBuffer
  | setPipeline
  | setBindGroup
  | dispatchWorkgroups
  | submit
  | draw
deriving DecidableEq, Repr

/-- `ComputeTextureBatch.updateTime`: warn and return if the batch is not
initialized or the uniform buffer is missing, else write the time uniform. -/
def batchUpdateTime (b : BatchState) (time : ℚ) : List GpuEvent × BatchState :=
  if !b.initialized || !b.hasUniformBuffer then ([GpuEvent.warn], b)
  else ([GpuEvent.writeBuffer], b)

/-- `ComputeTextureBatch.dispatch`: warn and return if not initialized or
compute resources are missing, else set the pipeline and bind group and
dispatch the workgroup grid. -/
def batchDispatch (b : BatchState) : List GpuEvent × BatchState :=
  if !b.initialized || !b.hasComputePipeline || !b.hasComputeBindGroup then
    ([GpuEvent.warn], b)
  else
    ([GpuEvent.setPipeline, GpuEvent.setBindGroup,
      GpuEvent.dispatchWorkgroups], b)

/-- The events and returned count of the `updatePositions` call inside
`draw`: warn (count 0) if the sprite-data buffer is missing, else one
buffer write and the truncated count. -/
def batchUpdatePositionsEvents (maxInstances : ℕ) (b : BatchState)
    (positions : List SpriteRec) : List GpuEvent × ℕ :=
  if !b.hasSpriteDataBuffer then ([GpuEvent.warn], 0)
  else ([GpuEvent.writeBuffer], (updatePositions maxInstances positions).2)

/-- `ComputeTextureBatch.draw` (two-texture revision): guard chain (not
initialized / missing render resources, empty positions, invalid
textures, zero instance count), then per-sprite compute bind-group
update + pipeline + bind group + dispatch, a queue submit, and the final
render-pass pipeline/bind-group/draw; the bind-group generations record
the mutations `updateComputeBindGroup` / `updateRenderBindGroup`
perform. -/
def batchDraw (maxInstances : ℕ) (b : BatchState)
    (positions : List SpriteRec) (texturesValid : Bool) :
    List GpuEvent × BatchState :=
  if !b.initialized || !b.hasRenderPipeline || !b.hasRenderBindGroup then
    ([GpuEvent.warn], b)
  else if positions.isEmpty then ([GpuEvent.warn], b)
  else if !texturesValid then ([GpuEvent.warn], b)
  else
    let up := batchUpdatePositionsEvents maxInstances b positions
    if up.2 = 0 then (up.1 ++ [GpuEvent.warn], b)
    else
      (up.1 ++
        (positions.map fun _ =>
          [GpuEvent.setPipeline, GpuEvent.setBindGroup,
           GpuEvent.dispatchWorkgroups]).flatten ++
        [GpuEvent.submit, GpuEvent.setPipeline, GpuEvent.setBindGroup,
         GpuEvent.draw],
       { b with
          computeBindGroupGen := b.computeBindGroupGen + positions.length,
          renderBindGroupGen := b.renderBindGroupGen + 1 })

/-- The arrow-key state tracked by `Game.setupControls`. -/
structure KeyState where
  left : Bool
  right : Bool
  up : Bool
  down : Bool
deriving DecidableEq, Repr

/-- One axis of camera movement in `Game.update`: subtract the speed when
the negative-direction key is down, then add it when the
positive-direction key is down. -/
def camStep (neg pos : Bool) (c speed : ℚ) : ℚ :=
  if pos then (if neg then c - speed else c) + speed
  else (if neg then c - speed else c)

/-- The X clamp bound of `Game.update`:
`(map[0].length * 32 - canvasWidth) / scaleFactor` when the map is
non-empty, else `1200 / scaleFactor`. -/
def gameMaxX (mapRows mapCols : ℕ) (canvasWidth scaleFactor : ℚ) : ℚ :=
  (if 0 < mapRows then (mapCols : ℚ) * 32 - canvasWidth else 1200)
    / scaleFactor

/-- The Y clamp bound of `Game.update`:
`(map.length * 32 - canvasHeight) / scaleFactor` when the map is
non-empty, else `800 / scaleFactor`. -/
def gameMaxY (mapRows : ℕ) (canvasHeight scaleFactor : ℚ) : ℚ :=
  (if 0 < mapRows then (mapRows : ℚ) * 32 - canvasHeight else 800)
    / scaleFactor

/-- `Game.update`: move the camera by the pressed arrow keys, then clamp
each axis into `[0, maxAxis]` via `Math.max(0, Math.min(camera, max))`. -/
def gameUpdate (keys : KeyState) (cameraX cameraY cameraSpeed : ℚ)
    (mapRows mapCols : ℕ) (canvasWidth canvasHeight scaleFactor : ℚ) :
    ℚ × ℚ :=
  (max 0 (min (camStep keys.left keys.right cameraX cameraSpeed)
      (gameMaxX mapRows mapCols canvasWidth scaleFactor)),
   max 0 (min (camStep keys.up keys.down cameraY cameraSpeed)
      (gameMaxY mapRows canvasHeight scaleFactor)))

/-- A cell of the raw map data: either a JavaScript array of tile codes
or some non-array value. -/
inductive JsCell
  | arrC (tiles : List ℤ)
  | nonArrC
deriving DecidableEq, Repr

/-- A row of the raw map data: either an array of cells or a non-array
value. -/
inductive JsRow
  | arrR (cells : List JsCell)
  | nonArrR
deriving DecidableEq, Repr

/-- The raw `mapData` argument of `Game`'s constructor. -/
inductive JsMapData
  | arrM (rows : List JsRow)
  | nonArrM
deriving DecidableEq, Repr

/-- `Array.isArray(row) ? row.length : 0`. -/
def rowLen : JsRow → ℕ
  | JsRow.arrR cells => cells.length
  | JsRow.nonArrR => 0

/-- `Math.max(...mapData.map(row => Array.isArray(row) ? row.length : 0))`. -/
def maxColsOf (rows : List JsRow) : ℕ :=
  (rows.map rowLen).foldr max 0

/-- A cell survives normalisation only if it is a non-empty array. -/
def normalizeCell : JsCell → Option (List ℤ)
  | JsCell.arrC tiles => if 0 < tiles.length then some tiles else none
  | JsCell.nonArrC => none

/-- Row normalisation in `Game`'s constructor: a non-array row becomes
`[]` (to be filtered out); an array row becomes `Array(maxCols).fill([7])`
with every valid cell copied over its slot. -/
def normalizeRow (maxCols : ℕ) : JsRow → List (List ℤ)
  | JsRow.nonArrR => []
  | JsRow.arrR cells =>
      (List.range maxCols).map fun j =>
        match cells[j]? with
        | some c => (normalizeCell c).getD [7]
        | none => [7]

/-- The fallback `Array(100).fill().map(() => Array(100).fill([7]))`. -/
def defaultGrassMap : List (List (List ℤ)) :=
  List.replicate 100 (List.replicate 100 ([7] : List ℤ))

/-- The `normalizedMap` local of `Game`'s constructor: empty unless
`mapData` is a non-empty array whose first row is an array, in which case
every row is normalised to `maxCols` cells and empty rows are dropped. -/
def normalizeRows : JsMapData → List (List (List ℤ))
  | JsMapData.nonArrM => []
  | JsMapData.arrM rows =>
      match rows with
      | [] => []
      | JsRow.nonArrR :: _ => []
      | JsRow.arrR _ :: _ =>
          (rows.map (normalizeRow (maxColsOf rows))).filter
            fun row => !row.isEmpty

/-- `this.map` after `Game`'s constructor: the normalised map, or the
100×100 default grass map when normalisation produced nothing. -/
def normalizeGameMap (m : JsMapData) : List (List (List ℤ)) :=
  if (normalizeRows m).isEmpty then defaultGrassMap else normalizeRows m

/-- The packed float array holds 9 floats per record. -/
theorem packed_length (l : List SpriteRec) :
    ((l.map packSprite).flatten).length = 9 * l.length := by
  induction l with
  | nil => simp
  | cons s t ih =>
      simp only [List.map_cons, List.flatten_cons, List.length_append, ih,
        packSprite, List.length_cons, List.length_nil]
      omega

/-- **C1.** `updatePositions` packs exactly `min(n, maxInstances)` records
and returns that count; over capacity it keeps exactly the first
`maxInstances` records (a deterministic truncation to the same initial
segment on the same input), and the bytes written (4 per packed float)
never exceed the buffer capacity `maxInstances * 36` allocated at
pipeline-creation time. -/
theorem updatePositions_packs_min_and_fits (maxInstances : ℕ)
    (positions : List SpriteRec) :
    (updatePositions maxInstances positions).2
        = min positions.length maxInstances ∧
    (updatePositions maxInstances positions).1
        = ((positions.take maxInstances).map packSprite).flatten ∧
    4 * (updatePositions maxInstances positions).1.length
        ≤ spriteDataBufferSize maxInstances := by
  unfold updatePositions
  by_cases h : positions.length > maxInstances
  · refine ⟨?_, ?_, ?_⟩
    · simp [h, List.length_take, Nat.min_comm]
    · simp [h]
    · simp only [h, if_pos, packed_length, spriteDataBufferSize,
        List.length_take]
      have : min maxInstances positions.length ≤ maxInstances :=
        Nat.min_le_left _ _
      omega
  · push_neg at h
    refine ⟨?_, ?_, ?_⟩
    · simp [Nat.not_lt.mpr h, Nat.min_eq_left h]
    · simp [Nat.not_lt.mpr h, List.take_of_length_le h]
    · simp only [if_neg (Nat.not_lt.mpr h), packed_length,
        spriteDataBufferSize]
      omega

/-- **C3.** Wherever the sampled object alpha is positive, the composited
fragment equals the object colour exactly, whatever the shadow and map
colours are. -/
theorem fragment_opaque_wins (mapColor shadowColor objectColor : Vec4)
    (h : objectColor.a > 0) :
    fragmentMain mapColor shadowColor objectColor = objectColor := by
  simp [fragmentMain, h]

/-- Witness for `fragment_opaque_wins` at a concrete opaque object texel. -/
theorem fragment_opaque_wins_witness :
    fragmentMain ⟨1, 1, 1, 1⟩ ⟨0, 0, 0, 1⟩ ⟨1/2, 0, 0, 1⟩ = ⟨1/2, 0, 0, 1⟩ :=
  fragment_opaque_wins ⟨1, 1, 1, 1⟩ ⟨0, 0, 0, 1⟩ ⟨1/2, 0, 0, 1⟩ (by norm_num)

/-- **C4 counterexample.** At a pixel with object alpha `0`, map alpha `1`
and shadow alpha `1/2`, the fragment shader's output (alpha `3/2`) differs
from the literal four-channel blend
`mapColor*(1-shadowAlpha) + shadowColor*shadowAlpha` (alpha `3/4`):
the code adds `mapColor.a` itself as the last component of the second
summand instead of `shadowColor.a * shadowColor.a`. -/
theorem fragment_shadow_blend_counterexample :
    Vec4.clear.a = 0 ∧
    fragmentMain ⟨0, 0, 0, 1⟩ ⟨0, 0, 0, 1/2⟩ Vec4.clear
      ≠ specShadowBlend ⟨0, 0, 0, 1⟩ ⟨0, 0, 0, 1/2⟩ := by
  constructor
  · rfl
  · intro h
    have := congrArg Vec4.a h
    norm_num [fragmentMain, specShadowBlend, Vec4.clear] at this

/-- **C4 (amended).** Where the object alpha is `0`, the red, green and
blue channels of the output equal the shadow-over-map blend
`mapColor*(1-shadowAlpha) + shadowColor*shadowAlpha` (map behind, shadow
on top), while the output alpha is `mapColor.a*(1-shadowAlpha) + mapColor.a`
(the code reuses the map alpha, not `shadowColor.a*shadowAlpha`). -/
theorem fragment_shadow_blend_rgb (mapColor shadowColor objectColor : Vec4)
    (h : objectColor.a = 0) :
    (fragmentMain mapColor shadowColor objectColor).r
        = (specShadowBlend mapColor shadowColor).r ∧
    (fragmentMain mapColor shadowColor objectColor).g
        = (specShadowBlend mapColor shadowColor).g ∧
    (fragmentMain mapColor shadowColor objectColor).b
        = (specShadowBlend mapColor shadowColor).b ∧
    (fragmentMain mapColor shadowColor objectColor).a
        = mapColor.a * (1 - shadowColor.a) + mapColor.a := by
  have hno : ¬ objectColor.a > 0 := by rw [h]; exact lt_irrefl 0
  refine ⟨?_, ?_, ?_, ?_⟩ <;>
    simp [fragmentMain, specShadowBlend, if_neg hno]

/-- Witness for `fragment_shadow_blend_rgb` at a concrete transparent
object texel over a half-strength shadow. -/
theorem fragment_shadow_blend_rgb_witness :
    (fragmentMain ⟨1, 0, 0, 1⟩ ⟨0, 0, 0, 1/2⟩ Vec4.clear).r
        = (specShadowBlend ⟨1, 0, 0, 1⟩ ⟨0, 0, 0, 1/2⟩).r ∧
    (fragmentMain ⟨1, 0, 0, 1⟩ ⟨0, 0, 0, 1/2⟩ Vec4.clear).g
        = (specShadowBlend ⟨1, 0, 0, 1⟩ ⟨0, 0, 0, 1/2⟩).g ∧
    (fragmentMain ⟨1, 0, 0, 1⟩ ⟨0, 0, 0, 1/2⟩ Vec4.clear).b
        = (specShadowBlend ⟨1, 0, 0, 1⟩ ⟨0, 0, 0, 1/2⟩).b ∧
    (fragmentMain ⟨1, 0, 0, 1⟩ ⟨0, 0, 0, 1/2⟩ Vec4.clear).a
        = (1 : ℚ) * (1 - 1/2) + 1 :=
  fragment_shadow_blend_rgb ⟨1, 0, 0, 1⟩ ⟨0, 0, 0, 1/2⟩ Vec4.clear rfl

/-- **C2.** In the packed order, any instance of strictly smaller
`screenY + baseline` appears strictly earlier, and equal-depth instances
are ordered by their stable insertion index. -/
theorem renderOrder_painters (cameraX cameraY : ℚ)
    (sprites : List RSprite) (i j : ℕ) (a b : RSprite)
    (ha : (renderOrder cameraX cameraY sprites)[i]? = some a)
    (hb : (renderOrder cameraX cameraY sprites)[j]? = some b) :
    (depthKey a < depthKey b → i < j) ∧
    (i < j → depthKey a = depthKey b → a.index ≤ b.index) := by
  have hsorted : List.Sorted spriteOrder (renderOrder cameraX cameraY sprites) :=
    List.sorted_insertionSort spriteOrder _
  rw [List.getElem?_eq_some] at ha hb
  obtain ⟨hi, hai⟩ := ha
  obtain ⟨hj, hbj⟩ := hb
  have hpair := List.pairwise_iff_getElem.mp hsorted
  constructor
  · intro hdepth
    by_contra hnot
    push_neg at hnot
    rcases Nat.lt_or_ge j i with hlt | hge
    · have horder := hpair j i hj hi hlt
      rw [hai, hbj] at horder
      rcases horder with h | ⟨h, _⟩
      · exact absurd (hdepth.trans h) (lt_irrefl _)
      · rw [h] at hdepth
        exact absurd hdepth (lt_irrefl _)
    · have hij : i = j := le_antisymm hge hnot
      subst hij
      rw [hai] at hbj
      rw [hbj] at hdepth
      exact absurd hdepth (lt_irrefl _)
  · intro hij heq
    have horder := hpair i j hi hj hij
    rw [hai, hbj] at horder
    rcases horder with h | ⟨_, hidx⟩
    · rw [heq] at h
      exact absurd h (lt_irrefl _)
    · exact hidx

/-- The sorted frame used by the `renderOrder_painters` witness, evaluated
on three concrete sprites (depths 6, 4, 4; indices 2, 7, 3). -/
theorem renderOrder_demo_eval :
    renderOrder 0 0 [⟨0, 5, 1, 2⟩, ⟨0, 3, 1, 7⟩, ⟨0, 2, 2, 3⟩]
      = [⟨0, 2, 2, 3⟩, ⟨0, 3, 1, 7⟩, ⟨0, 5, 1, 2⟩] := by
  norm_num [renderOrder, cameraShift, List.insertionSort,
    List.orderedInsert, spriteOrder, depthKey]

/-- Witness for `renderOrder_painters`: in the concrete frame the
shallower sprite (depth 4) precedes the deeper one (depth 6), and the
equal-depth pair is ordered by insertion index (3 before 7). -/
theorem renderOrder_painters_witness :
    ((0 : ℕ) < 2) ∧ ((3 : ℤ) ≤ 7) :=
  ⟨(renderOrder_painters 0 0 [⟨0, 5, 1, 2⟩, ⟨0, 3, 1, 7⟩, ⟨0, 2, 2, 3⟩]
      0 2 ⟨0, 2, 2, 3⟩ ⟨0, 5, 1, 2⟩
      (by rw [renderOrder_demo_eval]; rfl) (by rw [renderOrder_demo_eval]; rfl)).1
    (by norm_num [depthKey]),
   (renderOrder_painters 0 0 [⟨0, 5, 1, 2⟩, ⟨0, 3, 1, 7⟩, ⟨0, 2, 2, 3⟩]
      0 1 ⟨0, 2, 2, 3⟩ ⟨0, 3, 1, 7⟩
      (by rw [renderOrder_demo_eval]; rfl) (by rw [renderOrder_demo_eval]; rfl)).2
    (by norm_num) (by norm_num [depthKey])⟩

/-- **C6.** At rotation `θ = 0` the inverse-rotation mapping collapses to
the pure translation `pixel - spriteOffset`, so the sheet UV sampled at
`θ = 0` is exactly the unrotated UV mapping. -/
theorem texCoordMap_zero_rotation
    (spriteType : ℕ) (px py offsetX offsetY width height tileIndex : ℝ) :
    texCoordMap (Real.cos 0) (Real.sin 0) px py offsetX offsetY width height
        = (px - offsetX, py - offsetY) ∧
    sheetUV spriteType width height tileIndex
        (texCoordMap (Real.cos 0) (Real.sin 0) px py offsetX offsetY
          width height)
      = sheetUV spriteType width height tileIndex
          (px - offsetX, py - offsetY) := by
  have hmap : texCoordMap (Real.cos 0) (Real.sin 0) px py offsetX offsetY
      width height = (px - offsetX, py - offsetY) := by
    simp only [texCoordMap, Real.cos_zero, Real.sin_zero, Prod.mk.injEq]
    constructor <;> ring
  exact ⟨hmap, by rw [hmap]⟩

/-- **C5.** The shadow output is the fixed dark colour iff the pixel sits
strictly between the baseline and the shadow reach
(`0 < dy < maxShadowDist`), the mirrored source texel lies inside the
sprite's `[0,width)×[0,height)` footprint, and that source texel is
opaque; in particular a candidate source texel outside the footprint
leaves the shadow output fully transparent (alpha 0). -/
theorem shadowOutput_dark_iff (tex : ℚ × ℚ → Vec4) (ct st cR sR : ℚ)
    (sp : ShaderSprite) (px py : ℚ) :
    (shadowOutput tex ct st cR sR sp px py = shadowDarkColor ↔
      (0 < py - (sp.offsetY + sp.baseY) ∧
       py - (sp.offsetY + sp.baseY) < sp.maxShadowDist ∧
       inFootprint sp.width sp.height
         (shadowSourceTexCoord ct st cR sR sp px py) ∧
       (tex (sheetUV sp.spriteType sp.width sp.height sp.tileIndex
         (shadowSourceTexCoord ct st cR sR sp px py))).a > 0)) ∧
    (¬ inFootprint sp.width sp.height
         (shadowSourceTexCoord ct st cR sR sp px py) →
      shadowOutput tex ct st cR sR sp px py = Vec4.clear) := by
  have hne : shadowDarkColor ≠ Vec4.clear := by
    intro h
    have := congrArg Vec4.a h
    norm_num [shadowDarkColor, Vec4.clear] at this
  constructor
  · unfold shadowOutput
    by_cases h1 : py - (sp.offsetY + sp.baseY) > 0 ∧
        py - (sp.offsetY + sp.baseY) < sp.maxShadowDist
    · rw [if_pos h1]
      by_cases h2 : inFootprint sp.width sp.height
          (shadowSourceTexCoord ct st cR sR sp px py)
      · rw [if_pos h2]
        by_cases h3 : (tex (sheetUV sp.spriteType sp.width sp.height
            sp.tileIndex (shadowSourceTexCoord ct st cR sR sp px py))).a > 0
        · rw [if_pos h3]
          exact ⟨fun _ => ⟨h1.1, h1.2, h2, h3⟩, fun _ => rfl⟩
        · rw [if_neg h3]
          exact ⟨fun h => absurd h.symm hne, fun hc => absurd hc.2.2.2 h3⟩
      · rw [if_neg h2]
        exact ⟨fun h => absurd h.symm hne, fun hc => absurd hc.2.2.1 h2⟩
    · rw [if_neg h1]
      exact ⟨fun h => absurd h.symm hne,
        fun hc => absurd ⟨hc.1, hc.2.1⟩ h1⟩
  · intro hout
    unfold shadowOutput
    by_cases h1 : py - (sp.offsetY + sp.baseY) > 0 ∧
        py - (sp.offsetY + sp.baseY) < sp.maxShadowDist
    · rw [if_pos h1, if_neg hout]
    · rw [if_neg h1]

/-- Witness for `shadowOutput_dark_iff`: at a concrete pixel 99 texels to
the right of a 1×1 sprite, the projected source texel `(99.5, -0.5)` is
outside the footprint and the shadow output is fully transparent. -/
theorem shadowOutput_dark_iff_witness :
    shadowOutput (fun _ => ⟨1, 1, 1, 1⟩) 1 1 1 0 ⟨0, 0, 0, 1, 1, 0, 10, 0⟩
        100 1 = Vec4.clear :=
  (shadowOutput_dark_iff (fun _ => ⟨1, 1, 1, 1⟩) 1 1 1 0
      ⟨0, 0, 0, 1, 1, 0, 10, 0⟩ 100 1).2
    (by norm_num [inFootprint, shadowSourceTexCoord])

/-- **C7 counterexample.** A load whose URL is already cached returns the
cached texture without any dimension check: here the explicit request
`999×999` far exceeds the `10×10` bitmap, yet `loadTexture` succeeds
instead of throwing. -/
theorem loadTexture_cache_bypasses_guard :
    jsOrDim (some 999) 10 > 10 ∧
    (loadTexture [(0, ⟨10, 10⟩)] 0 (some 999) (some 999) 10 10).1
      = Except.ok ⟨10, 10⟩ := by
  constructor
  · decide
  · rfl

/-- **C7 (amended).** For a load that misses the URL cache, an explicit
width or height strictly larger than the bitmap's natural dimensions
makes `loadTexture` throw `ResourceError` and create nothing (the cache
is unchanged); a cache-missing load whose requested dimensions are within
bounds succeeds and returns the texture resource.  Cache hits return the
previously cached resource without the dimension check. -/
theorem loadTexture_guard (cache : List (ℕ × CachedTexture)) (url : ℕ)
    (reqW reqH : Option ℕ) (bitmapW bitmapH : ℕ)
    (hmiss : cache.lookup url = none) :
    (jsOrDim reqW bitmapW > bitmapW ∨ jsOrDim reqH bitmapH > bitmapH →
      loadTexture cache url reqW reqH bitmapW bitmapH
        = (Except.error ResourceError.dimsExceedBounds, cache)) ∧
    (jsOrDim reqW bitmapW ≤ bitmapW → jsOrDim reqH bitmapH ≤ bitmapH →
      (loadTexture cache url reqW reqH bitmapW bitmapH).1
        = Except.ok ⟨jsOrDim reqW bitmapW, jsOrDim reqH bitmapH⟩) := by
  constructor
  · intro hbig
    unfold loadTexture
    rw [hmiss]
    simp only [if_pos hbig]
  · intro hw hh
    unfold loadTexture
    rw [hmiss]
    have hnot : ¬ (jsOrDim reqW bitmapW > bitmapW ∨
        jsOrDim reqH bitmapH > bitmapH) := by
      push_neg
      exact ⟨hw, hh⟩
    simp only [if_neg hnot]

/-- Witness for `loadTexture_guard`: on an empty cache, requesting
`20×20` from a `10×10` bitmap errors, and requesting `8×8` succeeds. -/
theorem loadTexture_guard_witness :
    loadTexture [] 0 (some 20) (some 20) 10 10
        = (Except.error ResourceError.dimsExceedBounds, []) ∧
    (loadTexture [] 1 (some 8) (some 8) 10 10).1 = Except.ok ⟨8, 8⟩ :=
  ⟨(loadTexture_guard [] 0 (some 20) (some 20) 10 10 rfl).1 (by decide),
   by
    have h := (loadTexture_guard [] 1 (some 8) (some 8) 10 10 rfl).2
      (by decide) (by decide)
    simpa [jsOrDim] using h⟩

/-- **C8.** When pipeline/bind-group creation failed at startup
(`initialized = false`), every per-frame call — `updateTime`, `dispatch`
and `draw` — produces exactly one warning, issues no GPU command, and
leaves the batch state untouched (total functions: nothing throws). -/
theorem batch_uninitialized_safe_noop (maxInstances : ℕ) (b : BatchState)
    (time : ℚ) (positions : List SpriteRec) (texturesValid : Bool)
    (h : b.initialized = false) :
    batchUpdateTime b time = ([GpuEvent.warn], b) ∧
    batchDispatch b = ([GpuEvent.warn], b) ∧
    batchDraw maxInstances b positions texturesValid
      = ([GpuEvent.warn], b) := by
  refine ⟨?_, ?_, ?_⟩ <;>
    simp [batchUpdateTime, batchDispatch, batchDraw, h]

/-- Witness for `batch_uninitialized_safe_noop` on a concrete batch whose
resources all exist but whose `initialized` flag is still `false`. -/
theorem batch_uninitialized_safe_noop_witness :
    batchUpdateTime ⟨false, true, true, true, true, true, true, 0, 0⟩ 16
        = ([GpuEvent.warn], ⟨false, true, true, true, true, true, true, 0, 0⟩) ∧
    batchDispatch ⟨false, true, true, true, true, true, true, 0, 0⟩
        = ([GpuEvent.warn], ⟨false, true, true, true, true, true, true, 0, 0⟩) ∧
    batchDraw 1000 ⟨false, true, true, true, true, true, true, 0, 0⟩
        [⟨1, 2, 0, 112, 112, 80, 40, none, none⟩] true
        = ([GpuEvent.warn], ⟨false, true, true, true, true, true, true, 0, 0⟩) :=
  batch_uninitialized_safe_noop 1000
    ⟨false, true, true, true, true, true, true, 0, 0⟩ 16
    [⟨1, 2, 0, 112, 112, 80, 40, none, none⟩] true rfl

/-- **C9.** After `Game.update` on a non-empty map, the camera is inside
the map bounds: `0 ≤ cameraX ≤ max(0, (mapCols*32 - canvasWidth)/scale)`
and `0 ≤ cameraY ≤ max(0, (mapRows*32 - canvasHeight)/scale)`, for every
key state and prior camera position. -/
theorem gameUpdate_clamps (keys : KeyState)
    (cameraX cameraY cameraSpeed : ℚ) (mapRows mapCols : ℕ)
    (canvasWidth canvasHeight scaleFactor : ℚ) (hrows : 0 < mapRows) :
    0 ≤ (gameUpdate keys cameraX cameraY cameraSpeed mapRows mapCols
          canvasWidth canvasHeight scaleFactor).1 ∧
    (gameUpdate keys cameraX cameraY cameraSpeed mapRows mapCols
          canvasWidth canvasHeight scaleFactor).1
      ≤ max 0 (((mapCols : ℚ) * 32 - canvasWidth) / scaleFactor) ∧
    0 ≤ (gameUpdate keys cameraX cameraY cameraSpeed mapRows mapCols
          canvasWidth canvasHeight scaleFactor).2 ∧
    (gameUpdate keys cameraX cameraY cameraSpeed mapRows mapCols
          canvasWidth canvasHeight scaleFactor).2
      ≤ max 0 (((mapRows : ℚ) * 32 - canvasHeight) / scaleFactor) := by
  unfold gameUpdate gameMaxX gameMaxY
  rw [if_pos hrows, if_pos hrows]
  exact ⟨le_max_left _ _,
    max_le_max le_rfl (min_le_right _ _),
    le_max_left _ _,
    max_le_max le_rfl (min_le_right _ _)⟩

/-- Witness for `gameUpdate_clamps` on a 10×10 map, a 32×32 canvas, unit
scale, and no keys pressed. -/
theorem gameUpdate_clamps_witness :
    0 ≤ (gameUpdate ⟨false, false, false, false⟩ 5 7 5 10 10 32 32 1).1 ∧
    (gameUpdate ⟨false, false, false, false⟩ 5 7 5 10 10 32 32 1).1
      ≤ max 0 (((10 : ℚ) * 32 - 32) / 1) ∧
    0 ≤ (gameUpdate ⟨false, false, false, false⟩ 5 7 5 10 10 32 32 1).2 ∧
    (gameUpdate ⟨false, false, false, false⟩ 5 7 5 10 10 32 32 1).2
      ≤ max 0 (((10 : ℚ) * 32 - 32) / 1) :=
  gameUpdate_clamps ⟨false, false, false, false⟩ 5 7 5 10 10 32 32 1
    (by decide)

/-- Every normalised cell is a non-empty array. -/
theorem normalizeCell_getD_ne_nil (c : JsCell) :
    (normalizeCell c).getD [7] ≠ [] := by
  cases c with
  | arrC tiles =>
      by_cases h : 0 < tiles.length
      · simpa [normalizeCell, h] using List.length_pos.mp h
      · simp [normalizeCell, h]
  | nonArrC => simp [normalizeCell]

/-- A normalised array row has exactly `maxCols` cells. -/
theorem normalizeRow_arr_length (maxCols : ℕ) (cells : List JsCell) :
    (normalizeRow maxCols (JsRow.arrR cells)).length = maxCols := by
  simp [normalizeRow]

/-- Cells of a normalised row are never the empty array. -/
theorem normalizeRow_cells_ne_nil (maxCols : ℕ) (r : JsRow) :
    ∀ cell ∈ normalizeRow maxCols r, cell ≠ [] := by
  cases r with
  | nonArrR => simp [normalizeRow]
  | arrR cells =>
      intro cell hcell
      simp only [normalizeRow, List.mem_map, List.mem_range] at hcell
      obtain ⟨j, _, hcell⟩ := hcell
      cases hc : cells[j]? with
      | none => simp only [hc] at hcell; rw [← hcell]; simp
      | some c =>
          simp only [hc] at hcell
          rw [← hcell]
          exact normalizeCell_getD_ne_nil c

/-- Rows surviving the filter in `normalizeRows` all have `maxCols`
cells and only non-empty cells. -/
theorem mem_normalizeRows (m : JsMapData) (row : List (List ℤ))
    (hmem : row ∈ normalizeRows m) :
    (∃ rows, m = JsMapData.arrM rows ∧ row.length = maxColsOf rows) ∧
    ∀ cell ∈ row, cell ≠ [] := by
  cases m with
  | nonArrM => simp [normalizeRows] at hmem
  | arrM rows =>
      cases rows with
      | nil => simp [normalizeRows] at hmem
      | cons r0 rest =>
          cases r0 with
          | nonArrR => simp [normalizeRows] at hmem
          | arrR cells0 =>
              simp only [normalizeRows, List.mem_filter, List.mem_map]
                at hmem
              obtain ⟨⟨r, hr, hrow⟩, hkeep⟩ := hmem
              constructor
              · refine ⟨JsRow.arrR cells0 :: rest, rfl, ?_⟩
                cases r with
                | nonArrR =>
                    rw [← hrow] at hkeep
                    simp [normalizeRow] at hkeep
                | arrR cells =>
                    rw [← hrow]
                    exact normalizeRow_arr_length _ cells
              · rw [← hrow]
                exact normalizeRow_cells_ne_nil _ r

/-- **C10.** After construction the map is a non-empty rectangular grid
whose cells are all non-empty arrays, and an empty or malformed input is
replaced by the 100×100 default grass map. -/
theorem normalizeGameMap_invariants (m : JsMapData) :
    0 < (normalizeGameMap m).length ∧
    (∀ r1 ∈ normalizeGameMap m, ∀ r2 ∈ normalizeGameMap m,
      r1.length = r2.length) ∧
    (∀ row ∈ normalizeGameMap m, ∀ cell ∈ row, cell ≠ []) ∧
    (normalizeRows m = [] → normalizeGameMap m = defaultGrassMap) := by
  by_cases hempty : normalizeRows m = []
  · have hdef : normalizeGameMap m = defaultGrassMap := by
      simp [normalizeGameMap, hempty]
    refine ⟨?_, ?_, ?_, fun _ => hdef⟩
    · rw [hdef]
      simp [defaultGrassMap]
    · intro r1 h1 r2 h2
      rw [hdef] at h1 h2
      rw [List.eq_of_mem_replicate h1, List.eq_of_mem_replicate h2]
    · intro row hrow cell hcell
      rw [hdef] at hrow
      rw [List.eq_of_mem_replicate hrow] at hcell
      rw [List.eq_of_mem_replicate hcell]
      simp
  · have hsame : normalizeGameMap m = normalizeRows m := by
      simp [normalizeGameMap, hempty]
    refine ⟨?_, ?_, ?_, fun h => absurd h hempty⟩
    · rw [hsame]
      exact List.length_pos.mpr hempty
    · intro r1 h1 r2 h2
      rw [hsame] at h1 h2
      obtain ⟨⟨rows1, hm1, hlen1⟩, _⟩ := mem_normalizeRows m r1 h1
      obtain ⟨⟨rows2, hm2, hlen2⟩, _⟩ := mem_normalizeRows m r2 h2
      rw [hm1] at hm2
      cases hm2
      rw [hlen1, hlen2]
    · intro row hrow
      rw [hsame] at hrow
      exact (mem_normalizeRows m row hrow).2

/-- Witness for `normalizeGameMap_invariants` on a one-row map holding a
valid `[5]` cell and a non-array cell (normalised to `[[[5],[7]]]`). -/
theorem normalizeGameMap_invariants_witness :
    0 < (normalizeGameMap (JsMapData.arrM
          [JsRow.arrR [JsCell.arrC [5], JsCell.nonArrC]])).length ∧
    ([5] : List ℤ) ≠ [] :=
  ⟨(normalizeGameMap_invariants
      (JsMapData.arrM [JsRow.arrR [JsCell.arrC [5], JsCell.nonArrC]])).1,
   (normalizeGameMap_invariants
      (JsMapData.arrM [JsRow.arrR [JsCell.arrC [5], JsCell.nonArrC]])).2.2.1
      [[5], [7]] (by decide) [5] (by decide)⟩
